import Mathlib

/-!
Shallow embedding of the video-assembly core of `backend/server.py`
(TubeSmith3): the assembly worker `process_video_background`, the job
dispatcher `assemble_video`, the status store `update_video_status`, and
the read-time reconciliation in `get_video_status`.

External effects (filesystem probes, HTTP calls, subprocesses) are
modelled as oracle inputs collected in environment structures; all
control flow, thresholds, message strings and record manipulation are
translated directly from the Python source.  Seconds values (Python
floats that are only compared, added, capped with `min` and defaulted)
are modelled as integers, byte sizes and HTTP codes as naturals, and
process exit codes as integers.
-/

namespace TubeSmith

/-- Outcome of one `ffprobe` duration probe as observed by the caller:
the subprocess (or the `float(...)` parse of its stdout) raised, the
stripped stdout was empty, or a float value was parsed. -/
inductive ProbeOutcome where
  | exc : ProbeOutcome
  | emptyOut : ProbeOutcome
  | value : Int → ProbeOutcome
deriving Repr, DecidableEq

/-- Outcome of a `subprocess.run` of the main ffmpeg command:
normal completion with an exit code and captured stderr, a
`subprocess.TimeoutExpired`, or some other exception with its `str`. -/
inductive RunOutcome where
  | ok : Int → String → RunOutcome
  | timeout : RunOutcome
  | exc : String → RunOutcome
deriving Repr, DecidableEq

/-- One quality-tagged downloadable variant of a Pexels search result
(`video_files` entry).  An absent or empty `link` is modelled as `""`
(both are falsy in the Python check `medium_quality.get('link')`). -/
structure VideoFile where
  quality : String
  link : String
deriving Repr, DecidableEq

/-- One Pexels search result (`data['videos']` entry); `duration` is
`none` when the provider omitted the key (Python `video.get('duration', 10)`). -/
structure PexelsVideo where
  id : Nat
  duration : Option Int
  video_files : List VideoFile
deriving Repr, DecidableEq

/-- A selected stock video as built by the worker:
`{'url': ..., 'duration': video.get('duration', 10), 'id': ...}`. -/
structure StockVideo where
  url : String
  duration : Int
  id : Nat
deriving Repr, DecidableEq

/-- `next((vf for vf in video_files if vf.get('quality') == 'hd'),
video_files[0] if video_files else None)`. -/
def selectVariant (files : List VideoFile) : Option VideoFile :=
  match files.find? (fun vf => vf.quality == "hd") with
  | some vf => some vf
  | none => files.head?

/-- The worker's parsing loop over the (at most three) Pexels results:
keep a result when a variant was selected and its link is truthy. -/
def buildStock (videos : List PexelsVideo) : List StockVideo :=
  videos.filterMap (fun v =>
    match selectVariant v.video_files with
    | some vf => if vf.link ≠ "" then some ⟨vf.link, v.duration.getD 10, v.id⟩ else none
    | none => none)

/-- External outcomes for the download of one clip candidate:
`fetch = none` models `requests.get` raising, `some code` an HTTP
status code; `probe` is the post-download ffprobe outcome (consulted
only on HTTP 200). -/
structure ClipEnv where
  fetch : Option Nat
  probe : ProbeOutcome
deriving Repr, DecidableEq

/-- All external effects one run of `process_video_background` can
observe.  `thumbnails` lists the `*.png` glob results with their
creation times; `searchExc`/`searchStatus`/`searchVideos` describe the
Pexels search; `clips i` the download of candidate `i`; `encoder` the
main ffmpeg run; the `fs*` fields the post-encode verification probes
(`fsCheckExc` models the existence or size probe raising). -/
structure WorkerEnv where
  scriptExists : Bool
  audioExists : Bool
  thumbnails : List (String × Nat)
  searchExc : Bool
  searchStatus : Nat
  searchVideos : List PexelsVideo
  audioProbe : ProbeOutcome
  clips : Nat → ClipEnv
  encoder : RunOutcome
  fsCheckExc : Bool
  fsOutputExists : Bool
  fsOutputSize : Nat

/-- Arguments of one `update_video_status` call made by the worker. -/
structure Upd where
  status : String
  progress : Nat
  message : String
  error : String
deriving Repr, DecidableEq

/-- The direct `video_status[video_id].update({...})` performed after the
completion update (line 680): the extra keys merged into the in-memory
record only. -/
structure FinalFields where
  video_path : String
  duration : Int
  file_size : Nat
  clips_used : Nat
deriving Repr, DecidableEq

/-- Observable result of one worker run: the `update_video_status` calls
in order, the final in-memory merge (present only on completion), the
ffmpeg commands actually passed to `subprocess.run`, the
`downloaded_clips` list as candidate index paired with the recorded
duration, and the `audio_duration` value once computed. -/
structure WorkerRun where
  updates : List Upd
  finalMerge : Option FinalFields
  encoderInvoked : List (List String)
  downloadedClips : List (Nat × Int)
  audioDuration : Option Int
deriving Repr, DecidableEq

def scriptPathOf (script_id : String) : String :=
  "generated_content/scripts/" ++ script_id ++ ".txt"

def audioPathOf (script_id : String) : String :=
  "generated_content/audio/" ++ script_id ++ ".mp3"

def outputPathOf (video_id : String) : String :=
  "generated_content/videos/" ++ video_id ++ ".mp4"

def tempDirOf (video_id : String) : String :=
  "generated_content/temp_videos/" ++ video_id

/-- `max(thumbnail_files, key=os.path.getctime)`: Python `max` keeps the
first maximal element, so later entries replace only on strictly larger
creation time. -/
def pickLatest (l : List (String × Nat)) : String :=
  match l with
  | [] => ""
  | x :: xs => (xs.foldl (fun best y => if y.2 > best.2 then y else best) x).1

/-- `audio_duration = float(stdout.strip()) if stdout.strip() else 60.0`,
with the surrounding `except` also falling back to `60.0`. -/
def audioDurationOf : ProbeOutcome → Int
  | ProbeOutcome.exc => 60
  | ProbeOutcome.emptyOut => 60
  | ProbeOutcome.value q => q

/-- Duration recorded for one downloaded clip (lines 527-534): the
probed value when the probe parses, `10.0` on empty probe output, and
`min(stock_video.get('duration', 10), 20)` when the probe raises. -/
def clipDuration : ProbeOutcome → Int → Int
  | ProbeOutcome.exc, reported => min reported 20
  | ProbeOutcome.emptyOut, _ => 10
  | ProbeOutcome.value q, _ => q

/-- The stock-video list after the Pexels search block (lines 451-479):
any exception resets it to `[]`, a non-200 status leaves it `[]`, and on
success at most the first three results are parsed. -/
def stockVideosOf (env : WorkerEnv) : List StockVideo :=
  if env.searchExc then []
  else if env.searchStatus = 200 then buildStock (env.searchVideos.take 3)
  else []

/-- The clip-download loop (lines 516-550): a raised `requests.get` or a
non-200 status skips the candidate; on success the clip is appended with
its recorded duration and the loop breaks once the accumulated duration
reaches `audio_duration`. -/
def downloadLoop (clips : Nat → ClipEnv) (audio_duration : Int) :
    Nat → List StockVideo → Int → List (Nat × Int)
  | _, [], _ => []
  | i, sv :: rest, total =>
    match (clips i).fetch with
    | none => downloadLoop clips audio_duration (i + 1) rest total
    | some code =>
      if code = 200 then
        (i, clipDuration (clips i).probe sv.duration) ::
          (if total + clipDuration (clips i).probe sv.duration ≥ audio_duration then []
           else downloadLoop clips audio_duration (i + 1) rest
             (total + clipDuration (clips i).probe sv.duration))
      else downloadLoop clips audio_duration (i + 1) rest total

/-- The dynamic-mode ffmpeg command (lines 564-581). -/
def ffmpeg_cmd_dynamic (clips_list_path audio_path : String) (audio_duration : Int)
    (output_path : String) : List String :=
  ["/usr/bin/ffmpeg", "-y", "-f", "concat", "-safe", "0",
   "-i", clips_list_path, "-i", audio_path,
   "-c:v", "libx264", "-c:a", "aac", "-preset", "fast", "-crf", "28",
   "-vf", "scale=1280:720:force_original_aspect_ratio=decrease,pad=1280:720:(ow-iw)/2:(oh-ih)/2:color=black",
   "-t", toString audio_duration, "-avoid_negative_ts", "make_zero",
   "-fflags", "+genpts", "-movflags", "+faststart",
   "-max_muxing_queue_size", "1024", output_path]

/-- The static-mode ffmpeg command (lines 600-616). -/
def ffmpeg_cmd_static (thumbnail_path audio_path output_path : String) : List String :=
  ["/usr/bin/ffmpeg", "-y", "-loop", "1", "-i", thumbnail_path, "-i", audio_path,
   "-c:v", "libx264", "-c:a", "aac", "-preset", "fast", "-crf", "28",
   "-r", "25", "-pix_fmt", "yuv420p",
   "-vf", "scale=1280:720:force_original_aspect_ratio=decrease,pad=1280:720:(ow-iw)/2:(oh-ih)/2:color=black",
   "-shortest", "-movflags", "+faststart",
   "-max_muxing_queue_size", "1024", output_path]

/-- Python `str(list_of_strings)` as used by `%s` formatting. -/
def pyStrOfList (l : List String) : String :=
  "[" ++ String.intercalate ", " (l.map (fun s => "\x27" ++ s ++ "\x27")) ++ "]"

/-- `str` of `subprocess.TimeoutExpired(cmd, timeout)`:
`"Command '%s' timed out after %s seconds"`. -/
def timeoutExpired_str (cmd : List String) (timeout_secs : Nat) : String :=
  "Command \x27" ++ pyStrOfList cmd ++ "\x27 timed out after " ++
    toString timeout_secs ++ " seconds"

/-- The post-encode verification and completion tail (lines 649-687),
shared by every path that leaves the inner try statement without
returning: progress 95, then the existence / size checks against the
10,000-byte floor, then the completion update plus the in-memory merge
of `video_path` / `duration` / `file_size` / `clips_used = 1`. -/
def finalizeTail (video_id : String) (audio_duration : Int) (env : WorkerEnv)
    (pre : List Upd) (invoked : List (List String))
    (downloaded : List (Nat × Int)) : WorkerRun :=
  if env.fsCheckExc then
    ⟨pre ++ [⟨"processing", 95, "Finalizing video file...", ""⟩,
       ⟨"failed", 0, "", "Could not verify video file"⟩],
     none, invoked, downloaded, some audio_duration⟩
  else if env.fsOutputExists = false then
    ⟨pre ++ [⟨"processing", 95, "Finalizing video file...", ""⟩,
       ⟨"failed", 0, "", "Video file was not created"⟩],
     none, invoked, downloaded, some audio_duration⟩
  else if env.fsOutputSize < 10000 then
    ⟨pre ++ [⟨"processing", 95, "Finalizing video file...", ""⟩,
       ⟨"failed", 0, "",
        "Video file too small (" ++ toString env.fsOutputSize ++ " bytes) - creation failed"⟩],
     none, invoked, downloaded, some audio_duration⟩
  else
    ⟨pre ++ [⟨"processing", 95, "Finalizing video file...", ""⟩,
       ⟨"completed", 100, "Video ready for download!", ""⟩],
     some ⟨outputPathOf video_id, audio_duration, env.fsOutputSize, 1⟩,
     invoked, downloaded, some audio_duration⟩

/-- The static fallback, i.e. the suite of the first `except` clause of
the inner try statement (lines 594-638).  This is the only place the
main ffmpeg command is ever passed to `subprocess.run`.  A
`TimeoutExpired` or any other exception raised here is not caught by the
sibling `except` clauses (they belong to the same try statement) and
propagates to the worker's outermost handler, which writes
`"Processing error: " ++ str(e)`. -/
def staticFallback (video_id : String) (thumbnail_path audio_path : String)
    (audio_duration : Int) (env : WorkerEnv) (pre : List Upd)
    (downloaded : List (Nat × Int)) : WorkerRun :=
  match env.encoder with
  | RunOutcome.ok rc stderr =>
    if rc ≠ 0 then
      ⟨pre ++ [⟨"processing", 80, "Creating static video with thumbnail...", ""⟩,
         ⟨"processing", 80, "Rendering final video...", ""⟩,
         ⟨"failed", 0, "", "Video rendering failed: " ++ stderr.take 100⟩],
       none, [ffmpeg_cmd_static thumbnail_path audio_path (outputPathOf video_id)],
       downloaded, some audio_duration⟩
    else
      finalizeTail video_id audio_duration env
        (pre ++ [⟨"processing", 80, "Creating static video with thumbnail...", ""⟩,
           ⟨"processing", 80, "Rendering final video...", ""⟩])
        [ffmpeg_cmd_static thumbnail_path audio_path (outputPathOf video_id)] downloaded
  | RunOutcome.timeout =>
    ⟨pre ++ [⟨"processing", 80, "Creating static video with thumbnail...", ""⟩,
       ⟨"processing", 80, "Rendering final video...", ""⟩,
       ⟨"failed", 0, "",
        "Processing error: " ++
          timeoutExpired_str
            (ffmpeg_cmd_static thumbnail_path audio_path (outputPathOf video_id)) 600⟩],
     none, [ffmpeg_cmd_static thumbnail_path audio_path (outputPathOf video_id)],
     downloaded, some audio_duration⟩
  | RunOutcome.exc msg =>
    ⟨pre ++ [⟨"processing", 80, "Creating static video with thumbnail...", ""⟩,
       ⟨"processing", 80, "Rendering final video...", ""⟩,
       ⟨"failed", 0, "", "Processing error: " ++ msg⟩],
     none, [ffmpeg_cmd_static thumbnail_path audio_path (outputPathOf video_id)],
     downloaded, some audio_duration⟩

/-- Body of the worker once `audio_duration` is fixed.  Mirrors
`process_video_background` (lines 422-693): initial update, input
checks, thumbnail pick, Pexels search, clip downloads, then either the
dynamic branch - which only builds its ffmpeg command (the sole
`subprocess.run` of the main encode sits inside the static `except`
suite) - or the static fallback, followed by the shared verification
tail. -/
def processWith (video_id script_id : String) (env : WorkerEnv)
    (audio_duration : Int) : WorkerRun :=
  if env.scriptExists = false ∨ env.audioExists = false then
    ⟨[⟨"processing", 10, "Starting video assembly...", ""⟩,
      ⟨"failed", 0, "", "Required files not found"⟩], none, [], [], none⟩
  else if env.thumbnails = [] then
    ⟨[⟨"processing", 10, "Starting video assembly...", ""⟩,
      ⟨"failed", 0, "", "No thumbnail found for video creation"⟩], none, [], [], none⟩
  else if stockVideosOf env = [] then
    staticFallback video_id (pickLatest env.thumbnails) (audioPathOf script_id)
      audio_duration env
      [⟨"processing", 10, "Starting video assembly...", ""⟩,
       ⟨"processing", 30, "Getting stock video clips...", ""⟩,
       ⟨"processing", 60, "Downloading and processing stock videos...", ""⟩] []
  else if downloadLoop env.clips audio_duration 0 (stockVideosOf env) 0 = [] then
    staticFallback video_id (pickLatest env.thumbnails) (audioPathOf script_id)
      audio_duration env
      [⟨"processing", 10, "Starting video assembly...", ""⟩,
       ⟨"processing", 30, "Getting stock video clips...", ""⟩,
       ⟨"processing", 60, "Downloading and processing stock videos...", ""⟩,
       ⟨"processing", 50, "Downloading stock video clips...", ""⟩]
      (downloadLoop env.clips audio_duration 0 (stockVideosOf env) 0)
  else
    finalizeTail video_id audio_duration env
      [⟨"processing", 10, "Starting video assembly...", ""⟩,
       ⟨"processing", 30, "Getting stock video clips...", ""⟩,
       ⟨"processing", 60, "Downloading and processing stock videos...", ""⟩,
       ⟨"processing", 50, "Downloading stock video clips...", ""⟩,
       ⟨"processing", 70, "Creating dynamic video with stock clips...", ""⟩,
       ⟨"processing", 80, "Assembling dynamic video...", ""⟩] []
      (downloadLoop env.clips audio_duration 0 (stockVideosOf env) 0)

/-- One run of the background worker `process_video_background`. -/
def process_video_background (video_id script_id : String) (env : WorkerEnv) : WorkerRun :=
  processWith video_id script_id env (audioDurationOf env.audioProbe)

/-- The progress values of the worker's status updates whose status is
`"processing"`, in write order. -/
def processingProgress (r : WorkerRun) : List Nat :=
  (r.updates.filter (fun u => u.status == "processing")).map (fun u => u.progress)

/-- The request body of `POST /api/assemble-video`: `request.get("script_id")`
and `request.get("topic", "")`. -/
structure AssembleRequest where
  script_id : Option String
  topic : String
deriving Repr, DecidableEq

/-- Result of the `assemble_video` endpoint: the success body
`{video_id, status, message}` or an `HTTPException`. -/
inductive AssembleResult where
  | ok : String → String → String → AssembleResult
  | httpError : Nat → String → AssembleResult
deriving Repr, DecidableEq

/-- Observable effects of one `assemble_video` call: its HTTP result,
whether a job record was written (`update_video_status` called), the
arguments of that initial update, and whether a worker thread was
started. -/
structure AssembleRun where
  result : AssembleResult
  jobCreated : Bool
  initialUpdate : Option Upd
  workerSpawned : Bool
deriving Repr, DecidableEq

/-- Python truthiness test `if not script_id` on an optional string. -/
def pyFalsyStr : Option String → Bool
  | none => true
  | some s => s == ""

/-- `str` of a Starlette `HTTPException`:
`f"{self.status_code}: {self.detail}"`. -/
def httpExcStr (status_code : Nat) (detail : String) : String :=
  toString status_code ++ ": " ++ detail

/-- The `assemble_video` endpoint (lines 695-727).  `video_id` is the
freshly generated uuid.  The endpoint never consults the filesystem:
when `script_id` is truthy it writes the initial record and spawns the
worker unconditionally.  The explicit `HTTPException(400)` for a missing
`script_id` is raised inside the endpoint's own `try` block, whose
`except Exception` clause catches it (FastAPI's `HTTPException` derives
from `Exception`) and re-raises it as a 500. -/
def assemble_video (video_id : String) (req : AssembleRequest) : AssembleRun :=
  if pyFalsyStr req.script_id then
    ⟨AssembleResult.httpError 500
       ("Failed to start video assembly: " ++ httpExcStr 400 "script_id is required"),
     false, none, false⟩
  else
    ⟨AssembleResult.ok video_id "processing" "Video assembly started in background",
     true, some ⟨"processing", 0, "Initializing video assembly...", ""⟩, true⟩

/-- One job record as stored in `video_status[video_id]` and in the
per-job status file: the five keys always written by
`update_video_status` plus the keys that later `dict.update` calls may
add (`none` models an absent key). -/
structure JobRecord where
  status : String
  progress : Nat
  message : String
  error : String
  timestamp : Nat
  file_size : Option Nat := none
  video_path : Option String := none
  duration : Option Int := none
  clips_used : Option Nat := none
deriving Repr, DecidableEq

/-- State visible to one `get_video_status` call for a fixed job id:
the in-memory record, the persisted record, the on-disk artifact probes
for `generated_content/videos/{id}.mp4`, the duration probe outcome, a
flag modelling an exception inside the recovery `try` block, and the
clock value `time.time()` used for new records. -/
structure StatusState where
  mem : Option JobRecord
  disk : Option JobRecord
  fileExists : Bool
  fileSize : Nat
  videoProbe : ProbeOutcome
  recoveryExc : Bool
  now : Nat
deriving Repr, DecidableEq

/-- `update_video_status` (lines 403-420) acting on the store: the
in-memory record is replaced by a fresh five-key dict and the same dict
is serialized to the status file. -/
def update_video_status (st : StatusState) (status : String) (progress : Nat)
    (message error : String) : StatusState :=
  let r : JobRecord :=
    { status := status
      progress := progress
      message := message
      error := error
      timestamp := st.now }
  { st with mem := some r, disk := some r }

/-- Python `video_duration or status.get("duration", 60)`: `or` takes
the fallback when the left side is `None` or `0.0`. -/
def pyOrRat (a : Option Int) (b : Int) : Int :=
  match a with
  | some q => if q = 0 then b else q
  | none => b

/-- Result of `GET /api/video-status/{video_id}`: the returned record
plus the post-call state, or the 404. -/
inductive StatusResult where
  | ok : JobRecord → StatusState → StatusResult
  | notFound : StatusResult
deriving Repr, DecidableEq

/-- The recovery block of `get_video_status` (lines 747-788) applied to
an already-loaded record: when the record is `processing` or `failed`
and the artifact exceeds 50,000 bytes, the record object is enriched and
returned, but `update_video_status` then replaces the stored record with
a fresh five-key dict, after which only `file_size` and `duration` are
merged back (the `video_path` and `clips_used` keys are lost from the
store). -/
def recoverStatus (video_id : String) (st : StatusState) (status0 : JobRecord) :
    StatusResult :=
  if status0.status = "processing" ∨ status0.status = "failed" then
    if st.fileExists then
      if st.recoveryExc then StatusResult.ok status0 st
      else if st.fileSize > 50000 then
        let video_duration : Option Int :=
          match st.videoProbe with
          | ProbeOutcome.value q => some q
          | _ => none
        let newDuration := pyOrRat video_duration (status0.duration.getD 60)
        let status1 : JobRecord :=
          { status0 with
            status := "completed"
            progress := 100
            message := "Video ready for download!"
            file_size := some st.fileSize
            video_path := some (outputPathOf video_id)
            duration := some newDuration
            clips_used := some 1 }
        let st1 := { st with mem := some status1 }
        let st2 := update_video_status st1 "completed" 100 "Video ready for download!" ""
        let st3 := { st2 with
          mem := st2.mem.map (fun r =>
            { r with
              file_size := some st.fileSize
              duration := some (pyOrRat video_duration (status1.duration.getD 60)) }) }
        StatusResult.ok status1 st3
      else StatusResult.ok status0 st
    else StatusResult.ok status0 st
  else StatusResult.ok status0 st

/-- `get_video_status` (lines 729-795): load the record from memory,
else from the status file (caching it), else 404; then run the recovery
block and return the (possibly enriched) record. -/
def get_video_status (video_id : String) (st : StatusState) : StatusResult :=
  match st.mem with
  | some r => recoverStatus video_id st r
  | none =>
    match st.disk with
    | some r => recoverStatus video_id { st with mem := some r } r
    | none => StatusResult.notFound

/-- Two immediately successive `get_video_status` reads of the same id,
the second running on the state the first left behind. -/
def readTwice (video_id : String) (st : StatusState) :
    Option (JobRecord × JobRecord) :=
  match get_video_status video_id st with
  | StatusResult.ok r1 st1 =>
    match get_video_status video_id st1 with
    | StatusResult.ok r2 _ => some (r1, r2)
    | StatusResult.notFound => none
  | StatusResult.notFound => none

/-! Concrete environments used to evaluate the code on specific inputs. -/

/-- A job whose inputs all exist, whose Pexels search raises (so no
stock footage), and whose static encode succeeds producing a 2,000,000
byte artifact. -/
def envBase : WorkerEnv :=
  { scriptExists := true
    audioExists := true
    thumbnails := [("generated_content/thumbnails/t1.png", 5)]
    searchExc := true
    searchStatus := 0
    searchVideos := []
    audioProbe := ProbeOutcome.exc
    clips := fun _ => ⟨none, ProbeOutcome.exc⟩
    encoder := RunOutcome.ok 0 ""
    fsCheckExc := false
    fsOutputExists := true
    fsOutputSize := 2000000 }

/-- A job whose Pexels search returns one hd candidate whose download
succeeds (probed at 6 seconds, narration 10 seconds).  No ffmpeg
process runs on this path, so the fresh output path holds no file. -/
def envOneClip : WorkerEnv :=
  { envBase with
    searchExc := false
    searchStatus := 200
    searchVideos := [⟨101, some 6, [⟨"hd", "https://pexels.test/v101.mp4"⟩]⟩]
    audioProbe := ProbeOutcome.value 10
    clips := fun _ => ⟨some 200, ProbeOutcome.value 6⟩
    fsOutputExists := false
    fsOutputSize := 0 }

/-- Script and audio artifacts absent; the rest as in `envBase`. -/
def envMissingInputs : WorkerEnv :=
  { envBase with scriptExists := false, audioExists := false }

/-- Static encode succeeds but the artifact is only 20,000 bytes. -/
def envMidsize : WorkerEnv :=
  { envBase with fsOutputSize := 20000 }

/-- Static encode succeeds but the artifact is only 500 bytes. -/
def envTiny : WorkerEnv :=
  { envBase with fsOutputSize := 500 }

/-- One candidate whose reported duration is 5 seconds but whose
downloaded bytes probe at 45 seconds. -/
def envLongProbe : WorkerEnv :=
  { envBase with
    searchExc := false
    searchStatus := 200
    searchVideos := [⟨77, some 5, [⟨"hd", "https://pexels.test/v77.mp4"⟩]⟩]
    audioProbe := ProbeOutcome.value 30
    clips := fun _ => ⟨some 200, ProbeOutcome.value 45⟩
    fsOutputExists := false
    fsOutputSize := 0 }

/-- One candidate reported at 50 seconds whose post-download probe
raises, so the fallback `min(reported, 20)` applies. -/
def envProbeFails : WorkerEnv :=
  { envBase with
    searchExc := false
    searchStatus := 200
    searchVideos := [⟨78, some 50, [⟨"hd", "https://pexels.test/v78.mp4"⟩]⟩]
    audioProbe := ProbeOutcome.value 30
    clips := fun _ => ⟨some 200, ProbeOutcome.exc⟩
    fsOutputExists := false
    fsOutputSize := 0 }

/-- Static path whose encoder run times out. -/
def envEncTimeout : WorkerEnv :=
  { envBase with encoder := RunOutcome.timeout }

/-- Static path whose encoder exits with code 1. -/
def envEncFail : WorkerEnv :=
  { envBase with encoder := RunOutcome.ok 1 "boom" }

/-- A stored `processing` record at progress 60 whose on-disk artifact
is 60,000 bytes and probes at 12 seconds. -/
def stProcessing : StatusState :=
  { mem := some
      { status := "processing"
        progress := 60
        message := "Downloading and processing stock videos..."
        error := ""
        timestamp := 1 }
    disk := some
      { status := "processing"
        progress := 60
        message := "Downloading and processing stock videos..."
        error := ""
        timestamp := 1 }
    fileExists := true
    fileSize := 60000
    videoProbe := ProbeOutcome.value 12
    recoveryExc := false
    now := 2 }

/-! Helper lemmas. -/

theorem str_append_ne_empty (a b : String) (h : a ≠ "") : a ++ b ≠ "" := by
  intro he
  apply h
  have hd := congrArg String.data he
  rw [String.data_append] at hd
  have ha : a.data = [] := (List.append_eq_nil.mp hd).1
  cases a
  simp_all

theorem processing_ne_rendering (s t : String) :
    "Processing error: " ++ s ≠ "Video rendering failed: " ++ t := by
  intro h
  have hd := congrArg (fun x => x.data.head?) h
  simp only [String.data_append] at hd
  simp only [List.cons_append, List.head?_cons, Option.some.injEq] at hd
  exact absurd hd (by decide)

/-- Shape of the verification tail: one progress-95 update followed by a
single terminal update, which is `failed` whenever the artifact is
smaller than 10,000 bytes; the final merge is present exactly on
completion and then carries the output path, the audio duration, the
probed file size and `clips_used = 1`. -/
theorem finalizeTail_updates (vid : String) (ad : Int) (env : WorkerEnv)
    (pre : List Upd) (inv : List (List String)) (dl : List (Nat × Int)) :
    ∃ t : Upd,
      (finalizeTail vid ad env pre inv dl).updates
        = pre ++ [⟨"processing", 95, "Finalizing video file...", ""⟩, t] ∧
      ((t.status = "completed" ∧ t.progress = 100 ∧ t.error = "") ∨
        (t.status = "failed" ∧ t.progress = 0 ∧ t.error ≠ "")) ∧
      (env.fsOutputSize < 10000 → t.status = "failed") ∧
      ((finalizeTail vid ad env pre inv dl).finalMerge = none ∨
        ((finalizeTail vid ad env pre inv dl).finalMerge
            = some ⟨outputPathOf vid, ad, env.fsOutputSize, 1⟩ ∧
          t.status = "completed" ∧ 10000 ≤ env.fsOutputSize)) := by
  unfold finalizeTail
  split_ifs with h1 h2 h3
  · exact ⟨_, rfl, Or.inr ⟨rfl, rfl, by decide⟩, fun _ => rfl, Or.inl rfl⟩
  · exact ⟨_, rfl, Or.inr ⟨rfl, rfl, by decide⟩, fun _ => rfl, Or.inl rfl⟩
  · exact ⟨_, rfl, Or.inr ⟨rfl, rfl,
      str_append_ne_empty _ _ (str_append_ne_empty _ _ (by decide))⟩,
      fun _ => rfl, Or.inl rfl⟩
  · exact ⟨_, rfl, Or.inl ⟨rfl, rfl, rfl⟩, fun hs => absurd hs h3,
      Or.inr ⟨rfl, rfl, Nat.le_of_not_lt h3⟩⟩

/-- Shape of the static fallback: the two progress-80 updates (possibly
followed by the progress-95 update when the encode succeeds) and a
single terminal update, `failed` whenever the artifact is smaller than
10,000 bytes; the final merge is as in `finalizeTail_updates`. -/
theorem staticFallback_updates (vid th au : String) (ad : Int) (env : WorkerEnv)
    (pre : List Upd) (dl : List (Nat × Int)) :
    ∃ (mid : List Upd) (t : Upd),
      (staticFallback vid th au ad env pre dl).updates = pre ++ (mid ++ [t]) ∧
      (mid = [⟨"processing", 80, "Creating static video with thumbnail...", ""⟩,
              ⟨"processing", 80, "Rendering final video...", ""⟩] ∨
       mid = [⟨"processing", 80, "Creating static video with thumbnail...", ""⟩,
              ⟨"processing", 80, "Rendering final video...", ""⟩,
              ⟨"processing", 95, "Finalizing video file...", ""⟩]) ∧
      ((t.status = "completed" ∧ t.progress = 100 ∧ t.error = "") ∨
        (t.status = "failed" ∧ t.progress = 0 ∧ t.error ≠ "")) ∧
      (env.fsOutputSize < 10000 → t.status = "failed") ∧
      ((staticFallback vid th au ad env pre dl).finalMerge = none ∨
        ((staticFallback vid th au ad env pre dl).finalMerge
            = some ⟨outputPathOf vid, ad, env.fsOutputSize, 1⟩ ∧
          t.status = "completed" ∧ 10000 ≤ env.fsOutputSize)) := by
  unfold staticFallback
  split
  · split_ifs with hrc
    · exact ⟨_, _, rfl, Or.inl rfl,
        Or.inr ⟨rfl, rfl, str_append_ne_empty _ _ (by decide)⟩,
        fun _ => rfl, Or.inl rfl⟩
    · obtain ⟨t, ht, hterm, hsmall, hmerge⟩ :=
        finalizeTail_updates vid ad env
          (pre ++ [⟨"processing", 80, "Creating static video with thumbnail...", ""⟩,
                   ⟨"processing", 80, "Rendering final video...", ""⟩])
          [ffmpeg_cmd_static th au (outputPathOf vid)] dl
      refine ⟨_, t, ?_, Or.inr rfl, hterm, hsmall, hmerge⟩
      simp only [ht, List.append_assoc, List.cons_append, List.nil_append]
  · exact ⟨_, _, rfl, Or.inl rfl,
      Or.inr ⟨rfl, rfl, str_append_ne_empty _ _ (by decide)⟩,
      fun _ => rfl, Or.inl rfl⟩
  · exact ⟨_, _, rfl, Or.inl rfl,
      Or.inr ⟨rfl, rfl, str_append_ne_empty _ _ (by decide)⟩,
      fun _ => rfl, Or.inl rfl⟩

/-- Every worker run's update list is a block of `processing` updates
followed by exactly one terminal update; the terminal update is `failed`
whenever the artifact is below the 10,000-byte floor; a present final
merge carries the output path, the audio duration, the probed size and
`clips_used = 1`, and requires the size floor. -/
theorem process_updates_split (vid sid : String) (env : WorkerEnv) :
    ∃ (pre : List Upd) (t : Upd),
      (process_video_background vid sid env).updates = pre ++ [t] ∧
      (∀ u ∈ pre, u.status = "processing") ∧
      ((t.status = "completed" ∧ t.progress = 100 ∧ t.error = "") ∨
        (t.status = "failed" ∧ t.progress = 0 ∧ t.error ≠ "")) ∧
      (env.fsOutputSize < 10000 → t.status = "failed") ∧
      ((process_video_background vid sid env).finalMerge = none ∨
        ((process_video_background vid sid env).finalMerge
            = some ⟨outputPathOf vid, audioDurationOf env.audioProbe,
                    env.fsOutputSize, 1⟩ ∧
          t.status = "completed" ∧ 10000 ≤ env.fsOutputSize)) := by
  unfold process_video_background processWith
  split_ifs with h1 h2 h3 h4
  · refine ⟨[⟨"processing", 10, "Starting video assembly...", ""⟩], _, rfl,
      ?_, Or.inr ⟨rfl, rfl, by decide⟩, fun _ => rfl, Or.inl rfl⟩
    intro u hu
    simp only [List.mem_singleton] at hu
    subst hu; rfl
  · refine ⟨[⟨"processing", 10, "Starting video assembly...", ""⟩], _, rfl,
      ?_, Or.inr ⟨rfl, rfl, by decide⟩, fun _ => rfl, Or.inl rfl⟩
    intro u hu
    simp only [List.mem_singleton] at hu
    subst hu; rfl
  · obtain ⟨mid, t, hupd, hmid, hterm, hsmall, hmerge⟩ :=
      staticFallback_updates vid (pickLatest env.thumbnails) (audioPathOf sid)
        (audioDurationOf env.audioProbe) env
        [⟨"processing", 10, "Starting video assembly...", ""⟩,
         ⟨"processing", 30, "Getting stock video clips...", ""⟩,
         ⟨"processing", 60, "Downloading and processing stock videos...", ""⟩] []
    refine ⟨[⟨"processing", 10, "Starting video assembly...", ""⟩,
             ⟨"processing", 30, "Getting stock video clips...", ""⟩,
             ⟨"processing", 60, "Downloading and processing stock videos...", ""⟩] ++ mid,
      t, ?_, ?_, hterm, hsmall, hmerge⟩
    · simp only [hupd, List.append_assoc, List.cons_append, List.nil_append]
    · intro u hu
      rcases List.mem_append.mp hu with hu | hu
      · simp only [List.mem_cons, List.not_mem_nil, or_false] at hu
        rcases hu with rfl | rfl | rfl <;> rfl
      · rcases hmid with rfl | rfl <;>
          simp only [List.mem_cons, List.not_mem_nil, or_false] at hu
        · rcases hu with rfl | rfl <;> rfl
        · rcases hu with rfl | rfl | rfl <;> rfl
  · obtain ⟨mid, t, hupd, hmid, hterm, hsmall, hmerge⟩ :=
      staticFallback_updates vid (pickLatest env.thumbnails) (audioPathOf sid)
        (audioDurationOf env.audioProbe) env
        [⟨"processing", 10, "Starting video assembly...", ""⟩,
         ⟨"processing", 30, "Getting stock video clips...", ""⟩,
         ⟨"processing", 60, "Downloading and processing stock videos...", ""⟩,
         ⟨"processing", 50, "Downloading stock video clips...", ""⟩]
        (downloadLoop env.clips (audioDurationOf env.audioProbe) 0 (stockVideosOf env) 0)
    refine ⟨[⟨"processing", 10, "Starting video assembly...", ""⟩,
             ⟨"processing", 30, "Getting stock video clips...", ""⟩,
             ⟨"processing", 60, "Downloading and processing stock videos...", ""⟩,
             ⟨"processing", 50, "Downloading stock video clips...", ""⟩] ++ mid,
      t, ?_, ?_, hterm, hsmall, hmerge⟩
    · simp only [hupd, List.append_assoc, List.cons_append, List.nil_append]
    · intro u hu
      rcases List.mem_append.mp hu with hu | hu
      · simp only [List.mem_cons, List.not_mem_nil, or_false] at hu
        rcases hu with rfl | rfl | rfl | rfl <;> rfl
      · rcases hmid with rfl | rfl <;>
          simp only [List.mem_cons, List.not_mem_nil, or_false] at hu
        · rcases hu with rfl | rfl <;> rfl
        · rcases hu with rfl | rfl | rfl <;> rfl
  · obtain ⟨t, ht, hterm, hsmall, hmerge⟩ :=
      finalizeTail_updates vid (audioDurationOf env.audioProbe) env
        [⟨"processing", 10, "Starting video assembly...", ""⟩,
         ⟨"processing", 30, "Getting stock video clips...", ""⟩,
         ⟨"processing", 60, "Downloading and processing stock videos...", ""⟩,
         ⟨"processing", 50, "Downloading stock video clips...", ""⟩,
         ⟨"processing", 70, "Creating dynamic video with stock clips...", ""⟩,
         ⟨"processing", 80, "Assembling dynamic video...", ""⟩] []
        (downloadLoop env.clips (audioDurationOf env.audioProbe) 0 (stockVideosOf env) 0)
    refine ⟨[⟨"processing", 10, "Starting video assembly...", ""⟩,
             ⟨"processing", 30, "Getting stock video clips...", ""⟩,
             ⟨"processing", 60, "Downloading and processing stock videos...", ""⟩,
             ⟨"processing", 50, "Downloading stock video clips...", ""⟩,
             ⟨"processing", 70, "Creating dynamic video with stock clips...", ""⟩,
             ⟨"processing", 80, "Assembling dynamic video...", ""⟩,
             ⟨"processing", 95, "Finalizing video file...", ""⟩], t, ?_, ?_,
      hterm, hsmall, hmerge⟩
    · simp only [ht, List.append_assoc, List.cons_append, List.nil_append]
    · intro u hu
      simp only [List.mem_cons, List.not_mem_nil, or_false] at hu
      rcases hu with rfl | rfl | rfl | rfl | rfl | rfl | rfl <;> rfl

/-- C1 (code bug): on a job whose Pexels search returns one candidate and
whose download succeeds, the worker takes the dynamic branch (one clip in
`downloaded_clips`) but never passes any ffmpeg command to
`subprocess.run` - the only `subprocess.run` of the main encode sits
inside the static-fallback `except` suite - so the output file is never
produced, the verification fails, and the job ends `failed` with
"Video file was not created" instead of completing with
`clipsUsed == 1` downloaded clip. -/
theorem dynamic_clips_never_encoded :
    (process_video_background "vid-1" "sid-1" envOneClip).downloadedClips = [(0, 6)] ∧
    (process_video_background "vid-1" "sid-1" envOneClip).encoderInvoked = [] ∧
    (process_video_background "vid-1" "sid-1" envOneClip).updates.getLast? =
      some ⟨"failed", 0, "", "Video file was not created"⟩ ∧
    (process_video_background "vid-1" "sid-1" envOneClip).finalMerge = none := by
  decide

/-- C7 (code bug): a request without `script_id` does reach the explicit
`HTTPException(400, "script_id is required")`, but the endpoint's own
`except Exception` clause catches it (FastAPI's `HTTPException` derives
from `Exception`) and re-raises it as a 500, so the caller sees a
server-error-class result, not a bad-request-class one; no job is
created either way. -/
theorem assemble_missing_script_id_returns_500 :
    assemble_video "vid-7" ⟨none, ""⟩ =
      ⟨AssembleResult.httpError 500
         "Failed to start video assembly: 400: script_id is required",
       false, none, false⟩ ∧
    assemble_video "vid-7" ⟨some "", "topic"⟩ =
      ⟨AssembleResult.httpError 500
         "Failed to start video assembly: 400: script_id is required",
       false, none, false⟩ := by
  decide

/-- C2 counterexample: `assemble_video` never consults the filesystem,
so even when the referenced script and audio artifacts do not exist the
call succeeds synchronously, writes a job record and spawns a worker
(the worker then fails the job asynchronously), contradicting the
claimed synchronous not-found failure with no job and no worker. -/
theorem assemble_missing_artifacts_creates_job :
    (assemble_video "vid-2" ⟨some "script-9", "cats"⟩).result =
      AssembleResult.ok "vid-2" "processing" "Video assembly started in background" ∧
    (assemble_video "vid-2" ⟨some "script-9", "cats"⟩).jobCreated = true ∧
    (assemble_video "vid-2" ⟨some "script-9", "cats"⟩).workerSpawned = true ∧
    (process_video_background "vid-2" "script-9" envMissingInputs).updates =
      [⟨"processing", 10, "Starting video assembly...", ""⟩,
       ⟨"failed", 0, "", "Required files not found"⟩] := by
  decide

/-- C3 counterexample: the worker's verification floor is 10,000 bytes
(line 665), not 50,000: a 20,000-byte artifact is marked `completed`
with `file_size = 20000`, which does not exceed 50,000. -/
theorem worker_completes_below_50000 :
    (process_video_background "vid-3" "sid-3" envMidsize).updates.getLast? =
      some ⟨"completed", 100, "Video ready for download!", ""⟩ ∧
    (process_video_background "vid-3" "sid-3" envMidsize).finalMerge =
      some ⟨outputPathOf "vid-3", 60, 20000, 1⟩ ∧
    ¬ (20000 > 50000) := by
  decide

/-- C4 counterexample: when the Pexels search returns at least one
candidate the worker writes progress 60 ("Downloading and processing
stock videos...") and then progress 50 ("Downloading stock video
clips..."), both with status `processing`, so the progress sequence is
not monotonically non-decreasing. -/
theorem progress_not_monotone :
    processingProgress (process_video_background "vid-1" "sid-1" envOneClip) =
      [10, 30, 60, 50, 70, 80, 95] ∧
    ¬ List.Chain' (· ≤ ·)
      (processingProgress (process_video_background "vid-1" "sid-1" envOneClip)) := by
  have h : processingProgress (process_video_background "vid-1" "sid-1" envOneClip) =
      [10, 30, 60, 50, 70, 80, 95] := by decide
  refine ⟨h, ?_⟩
  rw [h]
  intro hch
  simp only [List.chain'_cons] at hch
  omega

/-- C5 counterexample: two immediately successive status reads of a
`processing` record whose 60,000-byte artifact exceeds the 50,000
threshold both return `completed` with the same `file_size`, but only
the first returned record carries `video_path`: the reconciliation's
`update_video_status` call replaces the stored record with a fresh
five-key dict and only `file_size` and `duration` are merged back, so
the second read's record has no `video_path` at all. -/
theorem readTwice_loses_video_path :
    (readTwice "v1" stProcessing).map
        (fun p => (p.1.status, p.2.status, p.1.file_size, p.2.file_size)) =
      some ("completed", "completed", some 60000, some 60000) ∧
    (readTwice "v1" stProcessing).map
        (fun p => (p.1.video_path, p.2.video_path)) =
      some (some "generated_content/videos/v1.mp4", none) ∧
    (readTwice "v1" stProcessing).map
        (fun p => p.1.video_path == p.2.video_path) = some false := by
  decide

/-- C6 counterexample: the 20-second cap is applied only in the
probe-failure fallback `min(stock_video.get('duration', 10), 20)`; when
the post-download probe parses, its value is recorded uncapped, so a
clip probing at 45 seconds is recorded with duration 45 > 20 even
though the provider reported 5. -/
theorem downloaded_clip_duration_exceeds_20 :
    (process_video_background "vid-6" "sid-6" envLongProbe).downloadedClips = [(0, 45)] ∧
    ¬ ((45 : Int) ≤ 20) := by
  decide

/-- C9: the worker always writes a terminal status before finishing -
its update list ends with a `completed` or `failed` update (the
outermost `except` converts any exception into a `failed` update) - and
every `failed` update it ever writes carries a non-empty error string. -/
theorem worker_writes_terminal_status (vid sid : String) (env : WorkerEnv) :
    (∃ t : Upd, (process_video_background vid sid env).updates.getLast? = some t ∧
        (t.status = "completed" ∨ t.status = "failed")) ∧
    ∀ u ∈ (process_video_background vid sid env).updates,
      u.status = "failed" → u.error ≠ "" := by
  obtain ⟨pre, t, hupd, hpre, hterm, hsmall, hmerge⟩ := process_updates_split vid sid env
  constructor
  · refine ⟨t, ?_, ?_⟩
    · rw [hupd]
      exact List.getLast?_concat _
    · rcases hterm with ⟨h, _⟩ | ⟨h, _⟩
      · exact Or.inl h
      · exact Or.inr h
  · intro u hu hf
    rw [hupd] at hu
    rcases List.mem_append.mp hu with hu | hu
    · have hp := hpre u hu
      rw [hp] at hf
      exact absurd hf (by decide)
    · have ht : u = t := by simpa using hu
      subst ht
      rcases hterm with ⟨h, _, _⟩ | ⟨_, _, h⟩
      · rw [h] at hf
        exact absurd hf (by decide)
      · exact h

/-- C9 witness: the terminal-status property evaluated on a concrete
environment. -/
theorem worker_writes_terminal_status_witness :
    (∃ t : Upd, (process_video_background "w9" "s9" envBase).updates.getLast? = some t ∧
        (t.status = "completed" ∨ t.status = "failed")) ∧
    ∀ u ∈ (process_video_background "w9" "s9" envBase).updates,
      u.status = "failed" → u.error ≠ "" :=
  worker_writes_terminal_status "w9" "s9" envBase

/-- C3 amended: the worker path's viability floor is 10,000 bytes: the
final merge of a completed job records the probed artifact size, which
is at least 10,000; and whenever the artifact is smaller than 10,000
bytes the worker's last status update is `failed`, never `completed`. -/
theorem completed_requires_size_10000 (vid sid : String) (env : WorkerEnv) :
    (∀ f : FinalFields, (process_video_background vid sid env).finalMerge = some f →
        f.file_size = env.fsOutputSize ∧ 10000 ≤ f.file_size) ∧
    (env.fsOutputSize < 10000 →
      ∃ t : Upd, (process_video_background vid sid env).updates.getLast? = some t ∧
        t.status = "failed") := by
  obtain ⟨pre, t, hupd, hpre, hterm, hsmall, hmerge⟩ := process_updates_split vid sid env
  constructor
  · intro f hf
    rcases hmerge with hm | ⟨hm, _, hge⟩
    · rw [hm] at hf
      exact absurd hf (by simp)
    · rw [hm] at hf
      obtain rfl := Option.some.inj hf
      exact ⟨rfl, hge⟩
  · intro hs
    refine ⟨t, ?_, hsmall hs⟩
    rw [hupd]
    exact List.getLast?_concat _

/-- C3 amended witness: a 500-byte artifact yields a `failed` final
status. -/
theorem completed_requires_size_10000_witness :
    envTiny.fsOutputSize < 10000 ∧
    ∃ t : Upd, (process_video_background "w3" "s3" envTiny).updates.getLast? = some t ∧
      t.status = "failed" :=
  ⟨by decide, (completed_requires_size_10000 "w3" "s3" envTiny).2 (by decide)⟩

/-- C4 amended: across every environment, the worker's `processing`
progress values are non-decreasing except for the single regression
from 60 ("Downloading and processing stock videos...") to 50
("Downloading stock video clips...") written when the stock-video
search returned at least one candidate. -/
theorem progress_monotone_except_60_50 (vid sid : String) (env : WorkerEnv) :
    List.Chain' (fun a b => a ≤ b ∨ (a = 60 ∧ b = 50))
      (processingProgress (process_video_background vid sid env)) := by
  unfold process_video_background processWith
  split_ifs with h1 h2 h3 h4
  · simp [processingProgress]
  · simp [processingProgress]
  · obtain ⟨mid, t, hupd, hmid, hterm, _, _⟩ :=
      staticFallback_updates vid (pickLatest env.thumbnails) (audioPathOf sid)
        (audioDurationOf env.audioProbe) env
        [⟨"processing", 10, "Starting video assembly...", ""⟩,
         ⟨"processing", 30, "Getting stock video clips...", ""⟩,
         ⟨"processing", 60, "Downloading and processing stock videos...", ""⟩] []
    unfold processingProgress
    rw [hupd]
    have hts : (t.status == "processing") = false := by
      rcases hterm with ⟨h, _, _⟩ | ⟨h, _, _⟩ <;> rw [h] <;> rfl
    rcases hmid with rfl | rfl <;>
      simp [List.filter_append, List.map_append, hts, List.chain'_cons]
  · obtain ⟨mid, t, hupd, hmid, hterm, _, _⟩ :=
      staticFallback_updates vid (pickLatest env.thumbnails) (audioPathOf sid)
        (audioDurationOf env.audioProbe) env
        [⟨"processing", 10, "Starting video assembly...", ""⟩,
         ⟨"processing", 30, "Getting stock video clips...", ""⟩,
         ⟨"processing", 60, "Downloading and processing stock videos...", ""⟩,
         ⟨"processing", 50, "Downloading stock video clips...", ""⟩]
        (downloadLoop env.clips (audioDurationOf env.audioProbe) 0 (stockVideosOf env) 0)
    unfold processingProgress
    rw [hupd]
    have hts : (t.status == "processing") = false := by
      rcases hterm with ⟨h, _, _⟩ | ⟨h, _, _⟩ <;> rw [h] <;> rfl
    rcases hmid with rfl | rfl <;>
      simp [List.filter_append, List.map_append, hts, List.chain'_cons]
  · obtain ⟨t, ht, hterm, _, _⟩ :=
      finalizeTail_updates vid (audioDurationOf env.audioProbe) env
        [⟨"processing", 10, "Starting video assembly...", ""⟩,
         ⟨"processing", 30, "Getting stock video clips...", ""⟩,
         ⟨"processing", 60, "Downloading and processing stock videos...", ""⟩,
         ⟨"processing", 50, "Downloading stock video clips...", ""⟩,
         ⟨"processing", 70, "Creating dynamic video with stock clips...", ""⟩,
         ⟨"processing", 80, "Assembling dynamic video...", ""⟩] []
        (downloadLoop env.clips (audioDurationOf env.audioProbe) 0 (stockVideosOf env) 0)
    unfold processingProgress
    rw [ht]
    have hts : (t.status == "processing") = false := by
      rcases hterm with ⟨h, _, _⟩ | ⟨h, _, _⟩ <;> rw [h] <;> rfl
    simp [List.filter_append, List.map_append, hts, List.chain'_cons]

/-- C4 amended witness: the relaxed chain evaluated on a concrete
environment that takes the dynamic branch. -/
theorem progress_monotone_except_60_50_witness :
    List.Chain' (fun a b => a ≤ b ∨ (a = 60 ∧ b = 50))
      (processingProgress (process_video_background "w4" "s4" envOneClip)) :=
  progress_monotone_except_60_50 "w4" "s4" envOneClip

theorem finalizeTail_downloadedClips (vid : String) (ad : Int) (env : WorkerEnv)
    (pre : List Upd) (inv : List (List String)) (dl : List (Nat × Int)) :
    (finalizeTail vid ad env pre inv dl).downloadedClips = dl := by
  unfold finalizeTail
  split_ifs <;> rfl

theorem staticFallback_downloadedClips (vid th au : String) (ad : Int)
    (env : WorkerEnv) (pre : List Upd) (dl : List (Nat × Int)) :
    (staticFallback vid th au ad env pre dl).downloadedClips = dl := by
  unfold staticFallback
  split
  · split_ifs
    · rfl
    · exact finalizeTail_downloadedClips ..
  · rfl
  · rfl

/-- The worker's `downloaded_clips` list is either the download loop's
result or empty (empty on the paths that never reach the loop). -/
theorem process_downloadedClips (vid sid : String) (env : WorkerEnv) :
    (process_video_background vid sid env).downloadedClips =
      downloadLoop env.clips (audioDurationOf env.audioProbe) 0 (stockVideosOf env) 0 ∨
    (process_video_background vid sid env).downloadedClips = [] := by
  unfold process_video_background processWith
  split_ifs with h1 h2 h3 h4
  · exact Or.inr rfl
  · exact Or.inr rfl
  · exact Or.inr (staticFallback_downloadedClips ..)
  · exact Or.inl (staticFallback_downloadedClips ..)
  · exact Or.inl (finalizeTail_downloadedClips ..)

/-- Every clip the download loop records with a failing probe (raised
probe or empty probe output) has duration at most 20: the raised-probe
fallback is `min(reported, 20)` and the empty-output fallback is 10. -/
theorem downloadLoop_probe_fail_le_20 (clips : Nat → ClipEnv) (ad : Int) :
    ∀ (stock : List StockVideo) (i : Nat) (total : Int) (j : Nat) (d : Int),
      (j, d) ∈ downloadLoop clips ad i stock total →
      ((clips j).probe = ProbeOutcome.exc ∨ (clips j).probe = ProbeOutcome.emptyOut) →
      d ≤ 20 := by
  intro stock
  induction stock with
  | nil =>
    intro i total j d h
    simp [downloadLoop] at h
  | cons sv rest ih =>
    intro i total j d h hp
    unfold downloadLoop at h
    cases hf : (clips i).fetch with
    | none =>
      rw [hf] at h
      exact ih (i + 1) total j d h hp
    | some code =>
      rw [hf] at h
      dsimp only at h
      by_cases hc : code = 200
      · rw [if_pos hc] at h
        rcases List.mem_cons.mp h with he | hrest
        · injection he with hj hd
          subst hj
          subst hd
          rcases hp with hp | hp <;> rw [hp]
          · exact min_le_right _ _
          · show (10 : Int) ≤ 20
            decide
        · by_cases hb : total + clipDuration (clips i).probe sv.duration ≥ ad
          · rw [if_pos hb] at hrest
            simp at hrest
          · rw [if_neg hb] at hrest
            exact ih _ _ _ _ hrest hp
      · rw [if_neg hc] at h
        exact ih _ _ _ _ h hp

/-- C6 amended: the 20-second cap applies exactly to the probe-failure
fallbacks: any downloaded clip whose post-download duration probe raised
or returned empty output is recorded with at most 20 seconds
(`min(reported, 20)` or the 10-second default); a successful probe's
value is recorded uncapped. -/
theorem clip_cap_only_on_probe_failure (vid sid : String) (env : WorkerEnv)
    (j : Nat) (d : Int)
    (hmem : (j, d) ∈ (process_video_background vid sid env).downloadedClips)
    (hp : (env.clips j).probe = ProbeOutcome.exc ∨
      (env.clips j).probe = ProbeOutcome.emptyOut) :
    d ≤ 20 := by
  rcases process_downloadedClips vid sid env with h | h
  · rw [h] at hmem
    exact downloadLoop_probe_fail_le_20 env.clips (audioDurationOf env.audioProbe)
      _ _ _ _ _ hmem hp
  · rw [h] at hmem
    simp at hmem

/-- C6 amended witness: a clip reported at 50 seconds whose probe raises
is recorded at `min(50, 20) = 20 ≤ 20`. -/
theorem clip_cap_only_on_probe_failure_witness :
    (0, (20 : Int)) ∈ (process_video_background "w6" "s6" envProbeFails).downloadedClips ∧
    (20 : Int) ≤ 20 :=
  ⟨by decide,
   clip_cap_only_on_probe_failure "w6" "s6" envProbeFails 0 20 (by decide) (Or.inl rfl)⟩

/-- C2 amended: the dispatcher performs no artifact-existence check:
for any truthy `script_id`, even when the script or audio artifact is
missing, `assemble_video` succeeds synchronously, creates a job record
and spawns a worker; the missing artifacts are detected by that worker,
whose entire update sequence is the initial progress-10 update followed
by `failed` with "Required files not found". -/
theorem assemble_skips_input_check (vid : String) (req : AssembleRequest)
    (sid : String) (env : WorkerEnv)
    (hs : req.script_id = some sid) (hne : sid ≠ "")
    (hmiss : env.scriptExists = false ∨ env.audioExists = false) :
    (assemble_video vid req).result =
      AssembleResult.ok vid "processing" "Video assembly started in background" ∧
    (assemble_video vid req).jobCreated = true ∧
    (assemble_video vid req).workerSpawned = true ∧
    (process_video_background vid sid env).updates =
      [⟨"processing", 10, "Starting video assembly...", ""⟩,
       ⟨"failed", 0, "", "Required files not found"⟩] := by
  have hfal : pyFalsyStr req.script_id = false := by
    rw [hs]
    exact beq_eq_false_iff_ne.mpr hne
  refine ⟨?_, ?_, ?_, ?_⟩
  · simp [assemble_video, hfal]
  · simp [assemble_video, hfal]
  · simp [assemble_video, hfal]
  · unfold process_video_background processWith
    rw [if_pos hmiss]

/-- C2 amended witness: evaluated for a request whose artifacts are
absent. -/
theorem assemble_skips_input_check_witness :
    (assemble_video "w2" ⟨some "s2", "t"⟩).result =
      AssembleResult.ok "w2" "processing" "Video assembly started in background" ∧
    (assemble_video "w2" ⟨some "s2", "t"⟩).jobCreated = true ∧
    (assemble_video "w2" ⟨some "s2", "t"⟩).workerSpawned = true ∧
    (process_video_background "w2" "s2" envMissingInputs).updates =
      [⟨"processing", 10, "Starting video assembly...", ""⟩,
       ⟨"failed", 0, "", "Required files not found"⟩] :=
  assemble_skips_input_check "w2" ⟨some "s2", "t"⟩ "s2" envMissingInputs rfl
    (by decide) (Or.inl rfl)

/-- Any job with valid inputs whose stock-video list or download-loop
result is empty runs the static fallback, with the update prefix
determined by which of the two was empty. -/
theorem process_reaches_static (vid sid : String) (env : WorkerEnv)
    (hv : env.scriptExists = true) (ha : env.audioExists = true)
    (hth : ¬ env.thumbnails = [])
    (hstatic : stockVideosOf env = [] ∨
      downloadLoop env.clips (audioDurationOf env.audioProbe) 0 (stockVideosOf env) 0 = []) :
    process_video_background vid sid env =
      staticFallback vid (pickLatest env.thumbnails) (audioPathOf sid)
        (audioDurationOf env.audioProbe) env
        [⟨"processing", 10, "Starting video assembly...", ""⟩,
         ⟨"processing", 30, "Getting stock video clips...", ""⟩,
         ⟨"processing", 60, "Downloading and processing stock videos...", ""⟩] [] ∨
    process_video_background vid sid env =
      staticFallback vid (pickLatest env.thumbnails) (audioPathOf sid)
        (audioDurationOf env.audioProbe) env
        [⟨"processing", 10, "Starting video assembly...", ""⟩,
         ⟨"processing", 30, "Getting stock video clips...", ""⟩,
         ⟨"processing", 60, "Downloading and processing stock videos...", ""⟩,
         ⟨"processing", 50, "Downloading stock video clips...", ""⟩] [] := by
  unfold process_video_background processWith
  split_ifs with h1 h2 h3
  · rcases h1 with h | h
    · rw [hv] at h
      exact absurd h (by decide)
    · rw [ha] at h
      exact absurd h (by decide)
  · exact Or.inl rfl
  · rw [h3]
    exact Or.inr rfl
  · rcases hstatic with h | h
    · exact absurd h h2
    · exact absurd h h3

theorem staticFallback_timeout_last (vid th au : String) (ad : Int)
    (env : WorkerEnv) (pre : List Upd) (dl : List (Nat × Int))
    (henc : env.encoder = RunOutcome.timeout) :
    (staticFallback vid th au ad env pre dl).updates.getLast? =
      some ⟨"failed", 0, "",
        "Processing error: " ++
          timeoutExpired_str (ffmpeg_cmd_static th au (outputPathOf vid)) 600⟩ := by
  unfold staticFallback
  rw [henc]
  dsimp only
  rw [List.getLast?_append]
  rfl

theorem staticFallback_nonzero_last (vid th au : String) (ad : Int)
    (env : WorkerEnv) (pre : List Upd) (dl : List (Nat × Int))
    (rc : Int) (stderr : String)
    (henc : env.encoder = RunOutcome.ok rc stderr) (hrc : rc ≠ 0) :
    (staticFallback vid th au ad env pre dl).updates.getLast? =
      some ⟨"failed", 0, "", "Video rendering failed: " ++ stderr.take 100⟩ := by
  unfold staticFallback
  rw [henc]
  dsimp only
  rw [if_pos hrc]
  rw [List.getLast?_append]
  rfl

/-- C8: an encoder timeout marks the job `failed` with the
timeout-specific message `"Processing error: Command '...' timed out
after 600 seconds"` - the `TimeoutExpired` raised inside the static
`except` suite is not caught by the sibling clauses and reaches the
worker's outermost handler - and this message always differs from the
non-zero-exit message `"Video rendering failed: <stderr excerpt>"`. -/
theorem encode_timeout_distinct_failure (vid sid vid2 sid2 : String)
    (env env2 : WorkerEnv) (rc : Int) (stderr : String)
    (hv : env.scriptExists = true) (ha : env.audioExists = true)
    (hth : ¬ env.thumbnails = [])
    (hstatic : stockVideosOf env = [] ∨
      downloadLoop env.clips (audioDurationOf env.audioProbe) 0 (stockVideosOf env) 0 = [])
    (henc : env.encoder = RunOutcome.timeout)
    (hv2 : env2.scriptExists = true) (ha2 : env2.audioExists = true)
    (hth2 : ¬ env2.thumbnails = [])
    (hstatic2 : stockVideosOf env2 = [] ∨
      downloadLoop env2.clips (audioDurationOf env2.audioProbe) 0 (stockVideosOf env2) 0 = [])
    (henc2 : env2.encoder = RunOutcome.ok rc stderr) (hrc : rc ≠ 0) :
    (process_video_background vid sid env).updates.getLast? =
      some ⟨"failed", 0, "",
        "Processing error: " ++
          timeoutExpired_str
            (ffmpeg_cmd_static (pickLatest env.thumbnails) (audioPathOf sid)
              (outputPathOf vid)) 600⟩ ∧
    (process_video_background vid2 sid2 env2).updates.getLast? =
      some ⟨"failed", 0, "", "Video rendering failed: " ++ stderr.take 100⟩ ∧
    "Processing error: " ++
        timeoutExpired_str
          (ffmpeg_cmd_static (pickLatest env.thumbnails) (audioPathOf sid)
            (outputPathOf vid)) 600 ≠
      "Video rendering failed: " ++ stderr.take 100 := by
  refine ⟨?_, ?_, processing_ne_rendering _ _⟩
  · rcases process_reaches_static vid sid env hv ha hth hstatic with h | h <;>
      rw [h] <;>
      exact staticFallback_timeout_last vid (pickLatest env.thumbnails)
        (audioPathOf sid) (audioDurationOf env.audioProbe) env _ _ henc
  · rcases process_reaches_static vid2 sid2 env2 hv2 ha2 hth2 hstatic2 with h | h <;>
      rw [h] <;>
      exact staticFallback_nonzero_last vid2 (pickLatest env2.thumbnails)
        (audioPathOf sid2) (audioDurationOf env2.audioProbe) env2 _ _ rc stderr henc2 hrc

/-- C8 witness: the timeout and non-zero-exit messages on two concrete
static-path environments. -/
theorem encode_timeout_distinct_failure_witness :
    (process_video_background "w8" "s8" envEncTimeout).updates.getLast? =
      some ⟨"failed", 0, "",
        "Processing error: " ++
          timeoutExpired_str
            (ffmpeg_cmd_static (pickLatest envEncTimeout.thumbnails) (audioPathOf "s8")
              (outputPathOf "w8")) 600⟩ ∧
    (process_video_background "w8b" "s8b" envEncFail).updates.getLast? =
      some ⟨"failed", 0, "", "Video rendering failed: " ++ "boom".take 100⟩ ∧
    "Processing error: " ++
        timeoutExpired_str
          (ffmpeg_cmd_static (pickLatest envEncTimeout.thumbnails) (audioPathOf "s8")
            (outputPathOf "w8")) 600 ≠
      "Video rendering failed: " ++ "boom".take 100 :=
  encode_timeout_distinct_failure "w8" "s8" "w8b" "s8b" envEncTimeout envEncFail 1 "boom"
    rfl rfl (by decide) (Or.inl rfl) rfl rfl rfl (by decide) (Or.inl rfl) rfl (by decide)

/-- C10: when the narration-audio duration probe raises or returns empty
output the worker behaves exactly as if the probe had returned 60.0
seconds - it does not fail the job - and any completed job then reports
duration 60. -/
theorem audio_probe_failure_defaults_60 (vid sid : String) (env : WorkerEnv)
    (h : env.audioProbe = ProbeOutcome.exc ∨ env.audioProbe = ProbeOutcome.emptyOut) :
    process_video_background vid sid env =
      process_video_background vid sid { env with audioProbe := ProbeOutcome.value 60 } ∧
    ∀ f : FinalFields, (process_video_background vid sid env).finalMerge = some f →
      f.duration = 60 := by
  have hd : audioDurationOf env.audioProbe = 60 := by
    rcases h with h | h <;> rw [h] <;> rfl
  constructor
  · show processWith vid sid env (audioDurationOf env.audioProbe) = _
    rw [hd]
    rfl
  · intro f hf
    obtain ⟨pre, t, _, _, _, _, hmerge⟩ := process_updates_split vid sid env
    rcases hmerge with hm | ⟨hm, _, _⟩
    · rw [hm] at hf
      exact absurd hf (by simp)
    · rw [hm] at hf
      obtain rfl := Option.some.inj hf
      show audioDurationOf env.audioProbe = 60
      exact hd

/-- C10 witness: evaluated on a concrete environment whose audio probe
raises. -/
theorem audio_probe_failure_defaults_60_witness :
    process_video_background "w10" "s10" envBase =
      process_video_background "w10" "s10"
        { envBase with audioProbe := ProbeOutcome.value 60 } ∧
    ∀ f : FinalFields, (process_video_background "w10" "s10" envBase).finalMerge = some f →
      f.duration = 60 :=
  audio_probe_failure_defaults_60 "w10" "s10" envBase (Or.inl rfl)

/-- C5 amended: when a stored `processing` or `failed` record has an
on-disk artifact above the 50,000-byte threshold, two immediately
successive reads both return `completed` with the same `file_size`, but
`video_path` is present only in the first returned record: the
reconciliation's `update_video_status` call replaces the stored record
and only `file_size` and `duration` are merged back. -/
theorem reconcile_twice_drops_path (vid : String) (st : StatusState) (r : JobRecord)
    (hm : st.mem = some r)
    (hst : r.status = "processing" ∨ r.status = "failed")
    (hex : st.fileExists = true) (hrec : st.recoveryExc = false)
    (hsz : st.fileSize > 50000) :
    ∃ r1 r2 : JobRecord, readTwice vid st = some (r1, r2) ∧
      r1.status = "completed" ∧ r2.status = "completed" ∧
      r1.file_size = some st.fileSize ∧ r2.file_size = some st.fileSize ∧
      r1.video_path = some (outputPathOf vid) ∧ r2.video_path = none := by
  unfold readTwice get_video_status recoverStatus
  rw [hm]
  dsimp only
  rw [if_pos hst, hex, hrec, if_pos hsz]
  exact ⟨_, _, rfl, rfl, rfl, rfl, rfl, rfl, rfl⟩

/-- C5 amended witness: evaluated on the concrete stored `processing`
record with a 60,000-byte artifact. -/
theorem reconcile_twice_drops_path_witness :
    ∃ r1 r2 : JobRecord, readTwice "v1" stProcessing = some (r1, r2) ∧
      r1.status = "completed" ∧ r2.status = "completed" ∧
      r1.file_size = some stProcessing.fileSize ∧
      r2.file_size = some stProcessing.fileSize ∧
      r1.video_path = some (outputPathOf "v1") ∧ r2.video_path = none :=
  reconcile_twice_drops_path "v1" stProcessing
    ⟨"processing", 60, "Downloading and processing stock videos...", "", 1, none, none,
      none, none⟩
    rfl (Or.inl rfl) rfl rfl (by decide)

end TubeSmith
